import Mathlib

/-!
Verification development for the go-hotel repository (package `hotel`).

The Go source is shallowly embedded as follows.

* A `Client` (src/hotel/client.go) is modelled by its observable state:
  the caller-supplied metadata, the `ctx.Done()` cancellation flag
  (`closed`), and the contents of its bounded buffer channel `bufferCh`
  (capacity 256).  The relay goroutine and `sendCh` are not needed by the
  claims except through `closed`.
* A `Room` (src/hotel/room.go) is modelled by: its cancellation flag,
  a fresh-client counter (Go allocates a new `*Client` pointer per
  `NewClient` call; pointers are modelled as `Nat` ids), the membership
  set `clients` (a list of ids; the Go map is a set of pointers), a store
  assigning each created client id its `ClientState`, the contents of the
  buffered event channel `eventsCh` (capacity 1024, FIFO), and the idle
  close timer handle (`none` = no timer, `some d` = timer armed with
  delay `d` nanoseconds).
* Go channel sends with `select`/`default` are non-blocking and total, so
  each operation is a Lean function from state to state plus result.
  Where a Go `select` has several *ready* communication cases, Go chooses
  among them by uniform pseudo-random selection; that choice is passed in
  explicitly as a `Bool` argument (see `clientSend`).
* The `Hotel` registry (src/hotel/hotel.go) is modelled separately as a
  small transition system (`HubState`), since its guarantees concern the
  interleaving of `GetOrCreateRoom`, the asynchronous room init
  goroutine, `Room.Close`, and the `monitorRoom` goroutine.
-/

namespace Hotel

/-- Capacity of a client's buffer channel, src/hotel/client.go line 27:
`bufferCh: make(chan DataType, 256)`. -/
def clientBufferCap : Nat := 256

/-- Capacity of a room's event channel, src/hotel/room.go line 48:
`eventsCh := make(chan Event[...], 1024)`. -/
def eventCap : Nat := 1024

/-- `DefaultAutoCloseDelay = 2 * time.Minute` (src/hotel/room.go line 44),
in nanoseconds as a Go `time.Duration`. -/
def defaultAutoCloseDelay : Nat := 2 * 60 * 1000000000

/-- The two error results of `Client.send` (src/hotel/client.go lines 70-81):
`errors.New("client disconnected")` and
`errors.New("send channel full, client disconnected")`. -/
inductive SendErr where
  | disconnected
  | bufferFull
deriving DecidableEq, Repr

/-- Observable state of a `Client` (src/hotel/client.go lines 14-21):
metadata, whether `ctx` has been cancelled (`Close` called), and the
queued contents of `bufferCh`. -/
structure ClientState (M D : Type) where
  meta : M
  closed : Bool
  buffer : List D
deriving DecidableEq, Repr

/-- `newClient` (src/hotel/client.go lines 23-56): fresh context, empty
buffer. -/
def newClient {M D : Type} (m : M) : ClientState M D :=
  { meta := m, closed := false, buffer := [] }

/-- `Client.Close` (src/hotel/client.go lines 91-95): `closeOnce.Do(cancel)`.
Cancelling the context is the only effect; it is a single irreversible
flag. -/
def clientClose {M D : Type} (c : ClientState M D) : ClientState M D :=
  { c with closed := true }

/-- `Client.send` (src/hotel/client.go lines 70-81):

```
select {
case <-c.ctx.Done():       return errors.New("client disconnected")
case c.bufferCh <- data:   return nil
default:                   c.Close()
                           return errors.New("send channel full, client disconnected")
}
```

Ready cases: the receive from `ctx.Done()` is ready iff the client is
closed; the buffered send is ready iff the buffer is not full.  When
both are ready Go picks one uniformly at random (Go spec, select
statements); the Boolean `pick` stands for that choice (`true` = the
`Done` branch wins).  The `default` branch runs only when no case is
ready: client open and buffer full; it closes the client. -/
def clientSend {M D : Type} (c : ClientState M D) (d : D) (pick : Bool) :
    ClientState M D × Option SendErr :=
  if c.closed then
    if c.buffer.length < clientBufferCap then
      if pick then (c, some .disconnected)
      else ({ c with buffer := c.buffer ++ [d] }, none)
    else (c, some .disconnected)
  else
    if c.buffer.length < clientBufferCap then
      ({ c with buffer := c.buffer ++ [d] }, none)
    else (clientClose c, some .bufferFull)

/-- `Event` (src/hotel/event.go): tagged by `EventJoin`, `EventLeave`,
`EventCustom`; carries the client that caused it and, for custom
events, the data. -/
inductive Event (D : Type) where
  | join (client : Nat)
  | leave (client : Nat)
  | custom (client : Nat) (data : D)
deriving DecidableEq, Repr

/-- Association-list lookup, modelling a Go map read. -/
def lookupKey {K A : Type} [DecidableEq K] (k : K) : List (K × A) → Option A
  | [] => none
  | (k', v) :: t => if k' = k then some v else lookupKey k t

/-- Pointwise update of the value stored under key `k`, modelling a
mutation of the object that a Go pointer refers to. -/
def mapAt {K A : Type} [DecidableEq K] (s : List (K × A)) (k : K) (f : A → A) :
    List (K × A) :=
  match s with
  | [] => []
  | (k', v) :: t =>
    if k' = k then (k', f v) :: mapAt t k f else (k', v) :: mapAt t k f

/-- Observable state of a `Room` (src/hotel/room.go lines 29-41). -/
structure RoomState (M D : Type) where
  closed : Bool
  nextClient : Nat
  members : List Nat
  store : List (Nat × ClientState M D)
  events : List (Event D)
  timer : Option Nat
deriving DecidableEq, Repr

/-- Close the client objects of all current members, as the loop in
`Room.Close` does (src/hotel/room.go lines 253-255). -/
def closeMembers {M D : Type} (members : List Nat)
    (store : List (Nat × ClientState M D)) : List (Nat × ClientState M D) :=
  match store with
  | [] => []
  | (k, c) :: t =>
    if k ∈ members then (k, clientClose c) :: closeMembers members t
    else (k, c) :: closeMembers members t

/-- `Room.Close` (src/hotel/room.go lines 249-262): stop the idle timer
(`cancelCloseTimer`), cancel the room context, close every member
client, set `clients = nil`.  The events channel is *not* closed (the
`close(r.eventsCh)` line is commented out). -/
def roomClose {M D : Type} (r : RoomState M D) : RoomState M D :=
  { r with closed := true, timer := none,
           store := closeMembers r.members r.store, members := [] }

/-- `Room.Emit` (src/hotel/room.go lines 174-181): non-blocking send on
the buffered events channel; on a full channel the event is dropped and
the room is closed. -/
def emit {M D : Type} (r : RoomState M D) (e : Event D) : RoomState M D :=
  if r.events.length < eventCap then { r with events := r.events ++ [e] }
  else roomClose r

/-- `cancelCloseTimer` (src/hotel/room.go lines 312-320). -/
def cancelCloseTimer {M D : Type} (r : RoomState M D) : RoomState M D :=
  { r with timer := none }

/-- `scheduleClose` (src/hotel/room.go lines 292-308): stop any existing
timer and arm a fresh one with `DefaultAutoCloseDelay` (so at most one
timer handle is live). -/
def scheduleClose {M D : Type} (r : RoomState M D) : RoomState M D :=
  { r with timer := some defaultAutoCloseDelay }

/-- The callback of the idle-close timer (src/hotel/room.go lines
299-307): when the armed timer fires it re-checks membership and calls
`Close` only if the room is still empty. -/
def timerFire {M D : Type} (r : RoomState M D) : RoomState M D :=
  match r.timer with
  | none => r
  | some _ =>
    if r.members.isEmpty then roomClose { r with timer := none }
    else { r with timer := none }

/-- `Room.NewClient` (src/hotel/room.go lines 114-138).  Under the lock:
if `ctx.Done()` is ready the room is closed and the call fails (the
`select` has a lone communication case plus `default`, so it is
deterministic); otherwise cancel any pending close timer, construct a
fresh client, build a *new* membership map containing the old members
plus the new client and swap it in (copy-on-write), then emit `Join`
and return the client. -/
def newClientOp {M D : Type} (r : RoomState M D) (m : M) :
    RoomState M D × Except String Nat :=
  if r.closed then (r, .error "cannot add client: room is closed")
  else
    let cid := r.nextClient
    let r1 : RoomState M D :=
      { r with timer := none,
               nextClient := cid + 1,
               members := r.members ++ [cid],
               store := r.store ++ [(cid, newClient m)] }
    (emit r1 (.join cid), .ok cid)

/-- `Room.RemoveClient` (src/hotel/room.go lines 143-170): error if the
client is not a member; otherwise swap in a new membership map without
the client (copy-on-write), remember whether it became empty, emit
`Leave`, close the client, and if the room became empty arm the idle
close timer. -/
def removeClientOp {M D : Type} (r : RoomState M D) (cid : Nat) :
    RoomState M D × Option String :=
  if cid ∈ r.members then
    let members' := r.members.filter (· ≠ cid)
    let isEmpty := members'.isEmpty
    let r2 := emit { r with members := members' } (.leave cid)
    let r3 : RoomState M D := { r2 with store := mapAt r2.store cid clientClose }
    (if isEmpty then scheduleClose r3 else r3, none)
  else (r, some "client not found")

/-- `Room.HandleClientData` (src/hotel/room.go lines 185-198): membership
check, then emit a custom event carrying the client and its data. -/
def handleClientDataOp {M D : Type} (r : RoomState M D) (cid : Nat) (d : D) :
    RoomState M D × Option String :=
  if cid ∈ r.members then (emit r (.custom cid d), none)
  else (r, some "client not found")

/-- `Room.SendToClient` (src/hotel/room.go lines 203-215): membership
check, then `client.send(data)`; on a send error the client is removed
from the room and a wrapped error is returned.  A member id always has
an object in the store (ids are only put in `members` together with a
store entry), so the `none` lookup branch is unreachable. -/
def sendToClientOp {M D : Type} (r : RoomState M D) (cid : Nat) (d : D)
    (pick : Bool) : RoomState M D × Option String :=
  if cid ∈ r.members then
    match lookupKey cid r.store with
    | none => (r, none)
    | some cs =>
      match clientSend cs d pick with
      | (cs', none) => ({ r with store := mapAt r.store cid fun _ => cs' }, none)
      | (cs', some _) =>
        let r1 : RoomState M D := { r with store := mapAt r.store cid fun _ => cs' }
        ((removeClientOp r1 cid).1, some "failed to send data")
  else (r, some "client not found")

/-- Folding `HandleClientData` over a list of data items from one client,
in order, with no other emitter (the sequential scenario of the
ordering property). -/
def runData {M D : Type} (r : RoomState M D) (cid : Nat) (ms : List D) :
    RoomState M D :=
  ms.foldl (fun s d => (handleClientDataOp s cid d).1) r

/-! ## The Hub registry (src/hotel/hotel.go)

`HubState` abstracts a `Hotel` value together with the status of each
room it ever created: `rid` is the room's fixed id string, `closed`
records whether the room context has been cancelled, `initSt` tracks
the `initGroup` goroutine (src/hotel/room.go lines 56-91), and
`monitored` records whether the `monitorRoom` goroutine (spawned at
registration, src/hotel/hotel.go line 47) has already performed its
deregistration.  Rooms are identified by allocation order (`Nat`), a
stand-in for the distinct `*Room` pointers. -/

/-- Status of the asynchronous room initialization. -/
inductive InitSt where
  | pending
  | done
  | failed
deriving DecidableEq, Repr

/-- Hub-level view of one room. `initSt = .done` iff `room.metadata` has
been populated (src/hotel/room.go line 76). -/
structure RoomH where
  rid : String
  closed : Bool
  initSt : InitSt
  monitored : Bool
deriving DecidableEq, Repr

/-- Hub-level view of a `Hotel`: the `rooms` registry map plus the state
of every room ever allocated. -/
structure HubState where
  nextRoom : Nat
  registry : List (String × Nat)
  roomsH : List (Nat × RoomH)
deriving DecidableEq, Repr

/-- The hub of a freshly constructed `Hotel` (src/hotel/hotel.go
lines 15-21): empty registry. -/
def hubNew : HubState :=
  { nextRoom := 0, registry := [], roomsH := [] }

/-- `Hotel.GetOrCreateRoom` (src/hotel/hotel.go lines 23-52): reject the
empty id; look the id up (the double-checked locking collapses, in a
sequential step, to one lookup); if present return that room *as is* —
no check of its context and no wait on its `initGroup`; if absent,
construct the room via `newRoom` (src/hotel/room.go lines 46-93), which
spawns the init goroutine and returns at once, register it and spawn
`monitorRoom`.  `newRoom` cannot fail synchronously (it returns only a
`*Room`), so the call returns the new room with a nil error while its
initialization is still pending. -/
def getOrCreateRoom (h : HubState) (id : String) : HubState × Except String Nat :=
  if id = "" then (h, .error "invalid room id: cannot be empty")
  else
    match lookupKey id h.registry with
    | some r => (h, .ok r)
    | none =>
      let r := h.nextRoom
      ({ nextRoom := r + 1,
         registry := (id, r) :: h.registry,
         roomsH := (r, { rid := id, closed := false, initSt := .pending,
                         monitored := false }) :: h.roomsH }, .ok r)

/-- Completion of the init goroutine started by `newRoom`
(src/hotel/room.go lines 56-91) with outcome `ok` of the user init
function: on error the goroutine stores the error in the errgroup and
returns — note it does *not* close the room; on success it checks
`ctx.Err()` (failing if the room was cancelled meanwhile), then
populates `metadata` and starts the handler. -/
def initStep (h : HubState) (r : Nat) (ok : Bool) : HubState :=
  { h with roomsH := mapAt h.roomsH r fun rm =>
      if rm.initSt = .pending then
        if ok ∧ rm.closed = false then { rm with initSt := .done }
        else { rm with initSt := .failed }
      else rm }

/-- `Room.Close` as seen from the hub: the room's context is cancelled
(src/hotel/room.go line 251). -/
def closeStep (h : HubState) (r : Nat) : HubState :=
  { h with roomsH := mapAt h.roomsH r fun rm => { rm with closed := true } }

/-- The body of the `monitorRoom` goroutine (src/hotel/hotel.go lines
54-59): it is blocked on `<-room.ctx.Done()` until the room closes, then
deletes `h.rooms[room.id]` under the lock, exactly once. -/
def monitorStep (h : HubState) (r : Nat) : HubState :=
  match lookupKey r h.roomsH with
  | none => h
  | some rm =>
    if rm.closed = true ∧ rm.monitored = false then
      { h with registry := h.registry.filter (fun p => p.1 ≠ rm.rid),
               roomsH := mapAt h.roomsH r fun x => { x with monitored := true } }
    else h

/-! ## Helper lemmas -/

theorem lookupKey_mapAt_self {K A : Type} [DecidableEq K]
    (s : List (K × A)) (k : K) (f : A → A) :
    lookupKey k (mapAt s k f) = (lookupKey k s).map f := by
  induction s with
  | nil => rfl
  | cons p t ih =>
    obtain ⟨a, b⟩ := p
    by_cases h : a = k
    · simp [mapAt, lookupKey, h]
    · simp [mapAt, lookupKey, h, ih]

theorem closeMembers_nil {M D : Type} (s : List (Nat × ClientState M D)) :
    closeMembers [] s = s := by
  induction s with
  | nil => rfl
  | cons p t ih =>
    obtain ⟨a, b⟩ := p
    simp [closeMembers, ih]

theorem emit_members {M D : Type} (r : RoomState M D) (e : Event D) :
    (emit r e).members = r.members ∨ (emit r e).members = [] := by
  unfold emit
  split
  · exact Or.inl rfl
  · exact Or.inr rfl

theorem not_mem_removeClient {M D : Type} (r : RoomState M D) (cid : Nat) :
    cid ∉ ((removeClientOp r cid).1).members := by
  unfold removeClientOp
  by_cases hm : cid ∈ r.members
  · simp only [if_pos hm]
    have hbase : cid ∉ (r.members.filter (· ≠ cid)) := by
      simp [List.mem_filter]
    rcases emit_members { r with members := r.members.filter (· ≠ cid) } (.leave cid)
      with he | he <;>
    · split <;> simp_all [scheduleClose]
  · simp [if_neg hm, hm]

theorem lookupKey_filter_self {K A : Type} [DecidableEq K]
    (s : List (K × A)) (k : K) :
    lookupKey k (s.filter fun p => p.1 ≠ k) = none := by
  induction s with
  | nil => rfl
  | cons p t ih =>
    obtain ⟨a, b⟩ := p
    by_cases h : a = k
    · simpa [List.filter_cons, h] using ih
    · simpa [List.filter_cons, h, lookupKey] using ih

/-! ## Claim theorems -/

/-- Claim C4: `Emit` never blocks the caller — it is a total function of
the state; with free space in the 1024-slot event queue the event is
appended (membership, clients, timer untouched), and with a full queue
the event is dropped (queue unchanged) and the room is closed
immediately. -/
theorem emit_spec {M D : Type} (r : RoomState M D) (e : Event D) :
    eventCap = 1024 ∧
    (r.events.length < eventCap →
      (emit r e).events = r.events ++ [e] ∧
      (emit r e).closed = r.closed ∧
      (emit r e).members = r.members ∧
      (emit r e).store = r.store ∧
      (emit r e).timer = r.timer) ∧
    (¬ r.events.length < eventCap →
      (emit r e).events = r.events ∧
      (emit r e).closed = true) := by
  refine ⟨rfl, ?_, ?_⟩ <;> intro h <;> simp [emit, roomClose, h]

/-- Witness for `emit_spec` at a concrete room with a non-full queue. -/
theorem emit_spec_witness :
    (⟨false, 0, [], [], [], none⟩ : RoomState Unit Nat).events.length < eventCap ∧
    (emit (⟨false, 0, [], [], [], none⟩ : RoomState Unit Nat)
        (Event.join 0)).events = [Event.join 0] := by
  refine ⟨by decide, ?_⟩
  have h := (emit_spec (⟨false, 0, [], [], [], none⟩ : RoomState Unit Nat)
      (Event.join 0)).2.1 (by decide)
  simpa using h.1

/-- Claim C7: `Room.Close` and `Client.Close` are idempotent — a second
(or any later) call is a no-op on the observable state: the cancellation
flag stays fired, membership stays cleared, the client stays closed.
Both are total functions, so the calls return normally (no panic, no
error; in particular `Room.Close` does not close the events channel, so
no double-close panic is possible). -/
theorem close_idempotent {M D : Type} (r : RoomState M D) (c : ClientState M D) :
    roomClose (roomClose r) = roomClose r ∧
    clientClose (clientClose c) = clientClose c := by
  constructor
  · simp [roomClose, closeMembers_nil]
  · rfl

/-- Claim C6 (amended): full characterization of `Client.send`.
`clientBufferCap = 256`; a closed client with a full buffer fails with
`Disconnected`; a closed client with buffer space hits a `select` whose
`Done`-receive and buffer-send cases are both ready, so the outcome is
the scheduler's pseudo-random pick: either `Disconnected` or a
successful (but never-delivered) enqueue; an open client with space
enqueues successfully; an open client with a full buffer is closed and
fails with `BufferFull`. -/
theorem clientSend_spec {M D : Type} (c : ClientState M D) (d : D) (pick : Bool) :
    clientBufferCap = 256 ∧
    (c.closed = true → ¬ c.buffer.length < clientBufferCap →
      clientSend c d pick = (c, some .disconnected)) ∧
    (c.closed = true → c.buffer.length < clientBufferCap → pick = true →
      clientSend c d pick = (c, some .disconnected)) ∧
    (c.closed = true → c.buffer.length < clientBufferCap → pick = false →
      clientSend c d pick = ({ c with buffer := c.buffer ++ [d] }, none)) ∧
    (c.closed = false → c.buffer.length < clientBufferCap →
      clientSend c d pick = ({ c with buffer := c.buffer ++ [d] }, none)) ∧
    (c.closed = false → ¬ c.buffer.length < clientBufferCap →
      clientSend c d pick = (clientClose c, some .bufferFull)) := by
  refine ⟨rfl, ?_, ?_, ?_, ?_, ?_⟩ <;> intros <;> simp [clientSend, *]

/-- Witness for `clientSend_spec`: an open client with one buffered item. -/
theorem clientSend_spec_witness :
    (⟨(), false, [5]⟩ : ClientState Unit Nat).closed = false ∧
    (⟨(), false, [5]⟩ : ClientState Unit Nat).buffer.length < clientBufferCap ∧
    clientSend (⟨(), false, [5]⟩ : ClientState Unit Nat) 7 true =
      (⟨(), false, [5, 7]⟩, none) := by
  refine ⟨rfl, by decide, ?_⟩
  exact (clientSend_spec (⟨(), false, [5]⟩ : ClientState Unit Nat) 7 true).2.2.2.2.1
    rfl (by decide)

/-- Claim C6 counterexample: a client whose cancellation signal has
fired (`closed = true`) and whose buffer has free space; when the
pseudo-random `select` picks the buffer-send case, `send` returns
success (`none`) instead of failing with `Disconnected`, and the data
sits in the buffer of the closed client. -/
theorem clientSend_closed_success :
    (⟨(), true, []⟩ : ClientState Unit Nat).closed = true ∧
    (clientSend (⟨(), true, []⟩ : ClientState Unit Nat) 7 false).2 = none ∧
    (clientSend (⟨(), true, []⟩ : ClientState Unit Nat) 7 false).1.buffer = [7] := by
  exact ⟨rfl, rfl, rfl⟩

/-- Claim C2: `NewClient` on a room whose cancellation signal has fired
fails with the room-closed error and changes nothing; otherwise it
returns a fresh client (never previously a member), swaps in the old
membership plus the new client (copy-on-write: the new map is built
from the old one, which — as a persistent value here — is untouched),
cancels any pending idle-close timer, and emits a `Join` event for the
new client (appended to the queue whenever there is space). -/
theorem newClient_spec {M D : Type} (r : RoomState M D) (m : M)
    (hfresh : ∀ x ∈ r.members, x < r.nextClient) :
    (r.closed = true →
      newClientOp r m = (r, .error "cannot add client: room is closed")) ∧
    (r.closed = false →
      (newClientOp r m).2 = .ok r.nextClient ∧
      r.nextClient ∉ r.members ∧
      (r.events.length < eventCap →
        (newClientOp r m).1.members = r.members ++ [r.nextClient] ∧
        (newClientOp r m).1.store = r.store ++ [(r.nextClient, newClient m)] ∧
        (newClientOp r m).1.events = r.events ++ [Event.join r.nextClient] ∧
        (newClientOp r m).1.timer = none ∧
        (newClientOp r m).1.closed = false)) := by
  constructor
  · intro h
    simp [newClientOp, h]
  · intro h
    refine ⟨by simp [newClientOp, h], ?_, ?_⟩
    · intro hx
      exact absurd (hfresh _ hx) (lt_irrefl _)
    · intro hspace
      simp [newClientOp, h, emit, hspace]

/-- Witness for `newClient_spec`: a room with one member and an armed
idle timer; adding a client succeeds, cancels the timer, and appends
the `Join` event. -/
theorem newClient_spec_witness :
    (∀ x ∈ (⟨false, 1, [0], [(0, newClient ())], [],
        some defaultAutoCloseDelay⟩ : RoomState Unit Nat).members, x < 1) ∧
    (newClientOp (⟨false, 1, [0], [(0, newClient ())], [],
        some defaultAutoCloseDelay⟩ : RoomState Unit Nat) ()).2 = .ok 1 ∧
    (newClientOp (⟨false, 1, [0], [(0, newClient ())], [],
        some defaultAutoCloseDelay⟩ : RoomState Unit Nat) ()).1.members = [0, 1] ∧
    (newClientOp (⟨false, 1, [0], [(0, newClient ())], [],
        some defaultAutoCloseDelay⟩ : RoomState Unit Nat) ()).1.timer = none := by
  have h := newClient_spec (⟨false, 1, [0], [(0, newClient ())], [],
      some defaultAutoCloseDelay⟩ : RoomState Unit Nat) () (by decide)
  have h2 := (h.2 rfl)
  have h3 := h2.2.2 (by decide)
  exact ⟨by decide, h2.1, by simpa using h3.1, h3.2.2.2.1⟩

/-- Claim C3: `RemoveClient` of a non-member returns the not-found error
and changes nothing; removing a member swaps in the membership minus
that client (copy-on-write), emits `Leave`, closes that client's
object, and arms the idle-close timer (delay `DefaultAutoCloseDelay`
= 2 minutes, overwriting any previous timer handle so at most one is
live) exactly when the new membership is empty — otherwise the timer is
left as it was.  The armed timer's callback closes the room only if
membership is still empty when it fires. -/
theorem removeClient_spec {M D : Type} (r : RoomState M D) (cid : Nat) :
    (cid ∉ r.members → removeClientOp r cid = (r, some "client not found")) ∧
    (cid ∈ r.members →
      (removeClientOp r cid).2 = none ∧
      (r.events.length < eventCap →
        (removeClientOp r cid).1.members = r.members.filter (· ≠ cid) ∧
        (removeClientOp r cid).1.events = r.events ++ [Event.leave cid] ∧
        lookupKey cid ((removeClientOp r cid).1.store) =
          (lookupKey cid r.store).map clientClose ∧
        ((r.members.filter (· ≠ cid)).isEmpty = true →
          (removeClientOp r cid).1.timer = some defaultAutoCloseDelay) ∧
        ((r.members.filter (· ≠ cid)).isEmpty = false →
          (removeClientOp r cid).1.timer = r.timer))) ∧
    (r.timer ≠ none → r.members.isEmpty = true → (timerFire r).closed = true) ∧
    (r.members.isEmpty = false →
      (timerFire r).closed = r.closed ∧ (timerFire r).members = r.members) ∧
    defaultAutoCloseDelay = 2 * 60 * 1000000000 := by
  refine ⟨?_, ?_, ?_, ?_, rfl⟩
  · intro h
    simp [removeClientOp, h]
  · intro hm
    constructor
    · by_cases he : (r.members.filter (· ≠ cid)).isEmpty <;>
        simp [removeClientOp, hm, he]
    · intro hspace
      have hemit : emit { r with members := r.members.filter (· ≠ cid) }
          (Event.leave cid) =
          { r with members := r.members.filter (· ≠ cid),
                   events := r.events ++ [Event.leave cid] } := by
        simp [emit, hspace]
      have hunfold : removeClientOp r cid =
          (if (r.members.filter (· ≠ cid)).isEmpty = true then
             { r with members := r.members.filter (· ≠ cid),
                      events := r.events ++ [Event.leave cid],
                      store := mapAt r.store cid clientClose,
                      timer := some defaultAutoCloseDelay }
           else
             { r with members := r.members.filter (· ≠ cid),
                      events := r.events ++ [Event.leave cid],
                      store := mapAt r.store cid clientClose }, none) := by
        simp only [removeClientOp]
        rw [if_pos hm, hemit]
        split <;> simp [scheduleClose]
      by_cases he : (r.members.filter (· ≠ cid)).isEmpty = true
      · rw [hunfold, if_pos he]
        exact ⟨rfl, rfl, lookupKey_mapAt_self r.store cid clientClose,
          fun _ => rfl, fun hfalse => absurd (hfalse ▸ he) Bool.false_ne_true⟩
      · rw [hunfold, if_neg he]
        exact ⟨rfl, rfl, lookupKey_mapAt_self r.store cid clientClose,
          fun htrue => absurd htrue he, fun _ => rfl⟩
  · intro ht hempty
    cases htm : r.timer with
    | none => exact absurd htm ht
    | some d => simp [timerFire, htm, hempty, roomClose]
  · intro hne
    cases htm : r.timer with
    | none => simp [timerFire, htm]
    | some d => simp [timerFire, htm, hne]

/-- Witness for `removeClient_spec`: removing the last member emits
`Leave`, closes the client, and arms the 2-minute idle timer. -/
theorem removeClient_spec_witness :
    0 ∈ (⟨false, 1, [0], [(0, newClient ())], [], none⟩ :
        RoomState Unit Nat).members ∧
    (removeClientOp (⟨false, 1, [0], [(0, newClient ())], [], none⟩ :
        RoomState Unit Nat) 0).2 = none ∧
    (removeClientOp (⟨false, 1, [0], [(0, newClient ())], [], none⟩ :
        RoomState Unit Nat) 0).1.members = [] ∧
    (removeClientOp (⟨false, 1, [0], [(0, newClient ())], [], none⟩ :
        RoomState Unit Nat) 0).1.events = [Event.leave 0] ∧
    (removeClientOp (⟨false, 1, [0], [(0, newClient ())], [], none⟩ :
        RoomState Unit Nat) 0).1.timer = some defaultAutoCloseDelay := by
  have h := (removeClient_spec (⟨false, 1, [0], [(0, newClient ())], [], none⟩ :
      RoomState Unit Nat) 0).2.1 (by decide)
  have h2 := h.2 (by decide)
  refine ⟨by decide, h.1, by simpa using h2.1, by simpa using h2.2.1,
    h2.2.2.2.1 (by decide)⟩

/-- Claim C5: `SendToClient` to a non-member returns the not-found error
and changes nothing; when the target is a member and the delivery
(`client.send`) fails — for any reason and whichever branch the
`select` takes — the call returns a non-nil error and the client is no
longer a member of the room afterwards. -/
theorem sendToClient_spec {M D : Type} (r : RoomState M D) (cid : Nat) (d : D)
    (pick : Bool) :
    (cid ∉ r.members → sendToClientOp r cid d pick = (r, some "client not found")) ∧
    (cid ∈ r.members → ∀ cs : ClientState M D, lookupKey cid r.store = some cs →
      ∀ e : SendErr, (clientSend cs d pick).2 = some e →
        ((sendToClientOp r cid d pick).2).isSome = true ∧
        cid ∉ ((sendToClientOp r cid d pick).1).members) := by
  constructor
  · intro h
    simp [sendToClientOp, h]
  · intro hm cs hcs e he
    rcases hsend : clientSend cs d pick with ⟨cs', res⟩
    rw [hsend] at he
    subst he
    have hrun : sendToClientOp r cid d pick =
        ((removeClientOp { r with store := mapAt r.store cid fun _ => cs' } cid).1,
          some "failed to send data") := by
      simp [sendToClientOp, hm, hcs, hsend]
    rw [hrun]
    exact ⟨rfl, not_mem_removeClient _ cid⟩

set_option maxRecDepth 4096 in
/-- Witness for `sendToClient_spec`: a member whose buffer is full; the
send fails with `BufferFull`, the call errors, and the member is
removed. -/
theorem sendToClient_spec_witness :
    0 ∈ (⟨false, 1, [0], [(0, ⟨(), false, List.replicate clientBufferCap 9⟩)],
        [], none⟩ : RoomState Unit Nat).members ∧
    lookupKey 0 (⟨false, 1, [0], [(0, ⟨(), false, List.replicate clientBufferCap 9⟩)],
        [], none⟩ : RoomState Unit Nat).store =
      some ⟨(), false, List.replicate clientBufferCap 9⟩ ∧
    (clientSend (⟨(), false, List.replicate clientBufferCap 9⟩ : ClientState Unit Nat)
        3 true).2 = some .bufferFull ∧
    ((sendToClientOp (⟨false, 1, [0], [(0, ⟨(), false, List.replicate clientBufferCap 9⟩)],
        [], none⟩ : RoomState Unit Nat) 0 3 true).2).isSome = true ∧
    0 ∉ ((sendToClientOp (⟨false, 1, [0], [(0, ⟨(), false, List.replicate clientBufferCap 9⟩)],
        [], none⟩ : RoomState Unit Nat) 0 3 true).1).members := by
  have h := (sendToClient_spec (⟨false, 1, [0],
      [(0, ⟨(), false, List.replicate clientBufferCap 9⟩)], [], none⟩ :
      RoomState Unit Nat) 0 3 true).2 (by decide) _ rfl .bufferFull (by decide)
  exact ⟨by decide, rfl, by decide, h.1, h.2⟩

/-- Claim C9: event ordering.  Feeding a member's data items to
`HandleClientData` one after the other, with no other emitter and
enough free queue slots, appends `Custom(client, m1) … Custom(client, mn)`
to the FIFO event queue in exactly that order (each emission happens
inside the call, before it returns), and membership is untouched. -/
theorem handleClientData_fifo {M D : Type} (cid : Nat) (ms : List D) :
    ∀ r : RoomState M D, cid ∈ r.members →
      r.events.length + ms.length ≤ eventCap →
      (runData r cid ms).events = r.events ++ ms.map (Event.custom cid) ∧
      (runData r cid ms).members = r.members := by
  induction ms with
  | nil =>
    intro r hm hs
    simp [runData]
  | cons d t ih =>
    intro r hm hs
    have hlt : r.events.length < eventCap := by
      simp only [List.length_cons] at hs
      omega
    have hstep : (handleClientDataOp r cid d).1 =
        { r with events := r.events ++ [Event.custom cid d] } := by
      simp [handleClientDataOp, hm, emit, hlt]
    have hrec := ih { r with events := r.events ++ [Event.custom cid d] }
      (by simpa using hm)
      (by simp only [List.length_append, List.length_cons, List.length_nil]
            at hs ⊢
          omega)
    have hfold : runData r cid (d :: t) =
        runData { r with events := r.events ++ [Event.custom cid d] } cid t := by
      simp [runData, hstep]
    rw [hfold]
    refine ⟨?_, by simpa using hrec.2⟩
    rw [hrec.1]
    simp

/-- Witness for `handleClientData_fifo`: member 0 sends 10, 20, 30 and
the queue receives the three custom events in order. -/
theorem handleClientData_fifo_witness :
    0 ∈ (⟨false, 1, [0], [(0, newClient ())], [], none⟩ :
        RoomState Unit Nat).members ∧
    (⟨false, 1, [0], [(0, newClient ())], [], none⟩ :
        RoomState Unit Nat).events.length + [10, 20, 30].length ≤ eventCap ∧
    (runData (⟨false, 1, [0], [(0, newClient ())], [], none⟩ :
        RoomState Unit Nat) 0 [10, 20, 30]).events =
      [Event.custom 0 10, Event.custom 0 20, Event.custom 0 30] := by
  have h := handleClientData_fifo 0 [10, 20, 30]
    (⟨false, 1, [0], [(0, newClient ())], [], none⟩ : RoomState Unit Nat)
    (by decide) (by decide)
  exact ⟨by decide, by decide, by simpa using h.1⟩

/-- A room whose event queue is full: no members yet, `eventCap` events
already queued. -/
def fullRoom : RoomState Unit Nat :=
  { closed := false, nextClient := 0, members := [], store := [],
    events := List.replicate eventCap (Event.join 0), timer := none }

set_option maxRecDepth 8192 in
/-- Claim C10: `NewClient` called on an open room whose event queue is
full still returns the freshly created client with a nil error, yet the
`Join` event was dropped (queue unchanged), the overflow policy closed
the room, membership was cleared, and the returned client's object was
closed along with the room. -/
theorem newClient_full_queue :
    (newClientOp fullRoom ()).2 = .ok 0 ∧
    (newClientOp fullRoom ()).1.closed = true ∧
    (newClientOp fullRoom ()).1.events = fullRoom.events ∧
    lookupKey 0 ((newClientOp fullRoom ()).1.store) =
      some (clientClose (newClient ())) ∧
    (newClientOp fullRoom ()).1.members = [] := by
  exact ⟨rfl, rfl, rfl, rfl, rfl⟩

/-! ## Hub-level theorems -/

/-- Claim C1 (evaluation of the code at the failing input): on a fresh
hotel whose init function fails, `GetOrCreateRoom "room1"` returns the
new room with a nil error *immediately*, while its initialization is
still pending (metadata not populated); nobody ever calls
`initGroup.Wait()`, so after the init goroutine ends in failure the
error has not been delivered to any caller, the failed entry is still
registered (the init goroutine does not close the room, so
`monitorRoom` never fires), and a later `GetOrCreateRoom "room1"`
returns the failed room, again with a nil error. -/
theorem getOrCreateRoom_no_wait_on_failed_init :
    (getOrCreateRoom hubNew "room1").2 = .ok 0 ∧
    lookupKey 0 ((getOrCreateRoom hubNew "room1").1).roomsH =
      some { rid := "room1", closed := false, initSt := .pending,
             monitored := false } ∧
    lookupKey "room1"
        ((initStep (getOrCreateRoom hubNew "room1").1 0 false).registry) =
      some 0 ∧
    lookupKey 0 ((initStep (getOrCreateRoom hubNew "room1").1 0 false).roomsH) =
      some { rid := "room1", closed := false, initSt := .failed,
             monitored := false } ∧
    (getOrCreateRoom (initStep (getOrCreateRoom hubNew "room1").1 0 false)
        "room1").2 = .ok 0 := by
  exact ⟨rfl, rfl, rfl, rfl, rfl⟩

/-- Claim C8 counterexample: create room 0 under id `"a"`, let init
succeed, close the room.  Before the `monitorRoom` goroutine runs its
deregistration (it merely *has become runnable* when `ctx.Done()`
fired), `GetOrCreateRoom "a"` still finds the entry in the registry and
returns the already-closed room 0 to a new caller, creating nothing
new. -/
theorem getOrCreateRoom_returns_closed_room :
    lookupKey 0
        ((closeStep (initStep (getOrCreateRoom hubNew "a").1 0 true) 0).roomsH) =
      some { rid := "a", closed := true, initSt := .done, monitored := false } ∧
    (getOrCreateRoom
        (closeStep (initStep (getOrCreateRoom hubNew "a").1 0 true) 0) "a").2 =
      .ok 0 ∧
    (getOrCreateRoom
        (closeStep (initStep (getOrCreateRoom hubNew "a").1 0 true) 0) "a").1 =
      closeStep (initStep (getOrCreateRoom hubNew "a").1 0 true) 0 := by
  exact ⟨rfl, rfl, rfl⟩

/-- Claim C8 (amended): the `monitorRoom` watch never deregisters a room
whose cancellation signal has not fired; once the signal has fired and
the watch runs, it removes the room's registry entry, and running it
again is a no-op (deregistration happens at most once); after the watch
has run, `GetOrCreateRoom` for that id allocates a brand-new room,
distinct from every existing room, with a fresh pending initialization.
(Between the signal firing and the watch running, `GetOrCreateRoom` can
still return the closed room — see the counterexample.) -/
theorem monitorRoom_spec (h : HubState) (r : Nat) (rm : RoomH)
    (hlk : lookupKey r h.roomsH = some rm)
    (hwf : ∀ p ∈ h.roomsH, p.1 < h.nextRoom) :
    (rm.closed = false → monitorStep h r = h) ∧
    (rm.closed = true → rm.monitored = false →
      lookupKey rm.rid ((monitorStep h r).registry) = none ∧
      monitorStep (monitorStep h r) r = monitorStep h r) ∧
    (rm.closed = true → rm.monitored = false → rm.rid ≠ "" →
      (getOrCreateRoom (monitorStep h r) rm.rid).2 = .ok h.nextRoom ∧
      lookupKey h.nextRoom
          ((getOrCreateRoom (monitorStep h r) rm.rid).1).roomsH =
        some { rid := rm.rid, closed := false, initSt := .pending,
               monitored := false } ∧
      (∀ p ∈ h.roomsH, p.1 ≠ h.nextRoom)) := by
  have hrun : ∀ hc : rm.closed = true, ∀ hmon : rm.monitored = false,
      monitorStep h r =
        { h with registry := h.registry.filter (fun p => p.1 ≠ rm.rid),
                 roomsH := mapAt h.roomsH r fun x => { x with monitored := true } } := by
    intro hc hmon
    simp [monitorStep, hlk, hc, hmon]
  refine ⟨?_, ?_, ?_⟩
  · intro hc
    simp [monitorStep, hlk, hc]
  · intro hc hmon
    constructor
    · rw [hrun hc hmon]
      exact lookupKey_filter_self h.registry rm.rid
    · rw [hrun hc hmon]
      have hlk2 : lookupKey r
          (mapAt h.roomsH r fun x => { x with monitored := true }) =
          some { rm with monitored := true } := by
        rw [lookupKey_mapAt_self, hlk]
        rfl
      simp [monitorStep, hlk2]
  · intro hc hmon hid
    rw [hrun hc hmon]
    have hreg2 : lookupKey rm.rid
        (List.filter (fun p => !decide (p.1 = rm.rid)) h.registry) = none := by
      simpa using lookupKey_filter_self h.registry rm.rid
    refine ⟨?_, ?_, ?_⟩
    · simp [getOrCreateRoom, hid, hreg2]
    · simp [getOrCreateRoom, hid, hreg2, lookupKey]
    · intro p hp
      exact Nat.ne_of_lt (hwf p hp)

/-- Witness for `monitorRoom_spec`: one closed room `"a"`; the watch
deregisters it, is idempotent, and a later `GetOrCreateRoom "a"`
allocates fresh room 1 with pending init. -/
theorem monitorRoom_spec_witness :
    lookupKey 0 (⟨1, [("a", 0)], [(0, ⟨"a", true, .done, false⟩)]⟩ :
        HubState).roomsH = some ⟨"a", true, .done, false⟩ ∧
    (∀ p ∈ (⟨1, [("a", 0)], [(0, ⟨"a", true, .done, false⟩)]⟩ :
        HubState).roomsH, p.1 < 1) ∧
    lookupKey "a" ((monitorStep (⟨1, [("a", 0)],
        [(0, ⟨"a", true, .done, false⟩)]⟩ : HubState) 0).registry) = none ∧
    (getOrCreateRoom (monitorStep (⟨1, [("a", 0)],
        [(0, ⟨"a", true, .done, false⟩)]⟩ : HubState) 0) "a").2 = .ok 1 := by
  have h := monitorRoom_spec (⟨1, [("a", 0)],
      [(0, ⟨"a", true, .done, false⟩)]⟩ : HubState) 0
      ⟨"a", true, .done, false⟩ rfl (by decide)
  exact ⟨rfl, by decide, (h.2.1 rfl rfl).1, (h.2.2 rfl rfl (by decide)).1⟩

end Hotel
